import Mathlib

/-!
Shallow embedding of `py27maasclient/__init__.py` (a Python 2.7 MAAS REST
client).  Pure data is modelled directly; the network is an oracle
`net : Request → Response`; the external `json` module is a parameter
`loads : String → Option Json` (parse or fail) together with, where a
round-trip is needed, an abstract encoder `dumps : Json → Option`-free
`Json → String`.  Python exceptions become an explicit error type: the
repository raises a single exception class `MAASError` (whose message is
built from one of five format strings), and the `assert` statement in
`Client.get_node_id` can raise Python's built-in `AssertionError`;
subscript/`len` misuse would raise `KeyError` / `TypeError` / `IndexError`.
-/

namespace Py27Maas

/-- JSON values as produced by `json.loads` (numbers restricted to integers,
which suffices for every property stated here). -/
inductive Json where
  | null : Json
  | bool (b : Bool) : Json
  | num (n : Int) : Json
  | str (s : String) : Json
  | arr (items : List Json) : Json
  | obj (fields : List (String × Json)) : Json

/-- The data interpolated into each of the five `MAASError` message format
strings appearing in the source.  One constructor per format string:
`statusContent` is `'status=%s content=%s'` (line 16), `nonJson` is
`'unexpected non-json response: status=%s headers=%s content=%s'`,
`parseFailed` is `'failed to parse json: status=%s headers=%s content=%s'`,
`unexpected` is `'unexpected status: %s'`, and `timeout` is the
`'the machine did not reach the expected status %s within the time limit
%ds (the last status is %s)'` message raised after the poll loop breaks. -/
inductive Msg where
  | statusContent (status : Nat) (content : String) : Msg
  | nonJson (status : Nat) (headers : List (String × String)) (content : String) : Msg
  | parseFailed (status : Nat) (headers : List (String × String)) (content : String) : Msg
  | unexpected (status : String) : Msg
  | timeout (return_on : List String) (timeout : Int) (lastStatus : String) : Msg
deriving DecidableEq

/-- Which format string a message was built from (0–4 in source order). -/
def Msg.tag : Msg → Nat
  | .statusContent _ _ => 0
  | .nonJson _ _ _ => 1
  | .parseFailed _ _ _ => 2
  | .unexpected _ => 3
  | .timeout _ _ _ => 4

/-- Python exceptions this code can raise: the repository's single
`MAASError` class (carrying a message), plus the built-ins `AssertionError`
(from `assert len(nodes) == 1`), and `KeyError`/`TypeError`/`IndexError`
(from subscripting / `len` on unexpectedly-shaped decoded values). -/
inductive PyErr where
  | maas (m : Msg) : PyErr
  | assertion : PyErr
  | keyError : PyErr
  | typeError : PyErr
  | indexError : PyErr
deriving DecidableEq

/-- The Python exception class of an error (what an `except SomeClass`
handler discriminates on). -/
inductive ErrKind where
  | maasError : ErrKind
  | assertionError : ErrKind
  | keyErrorKind : ErrKind
  | typeErrorKind : ErrKind
  | indexErrorKind : ErrKind
deriving DecidableEq

def PyErr.kind : PyErr → ErrKind
  | .maas _ => .maasError
  | .assertion => .assertionError
  | .keyError => .keyErrorKind
  | .typeError => .typeErrorKind
  | .indexError => .indexErrorKind

/-- An HTTP response as the `requests` library presents it. -/
structure Response where
  status_code : Nat
  headers : List (String × String)
  text : String
deriving DecidableEq

/-- `requests.Response.ok`: true when the status code is below 400. -/
def resOk (r : Response) : Bool := r.status_code < 400

/-- `headers.get(key)`.  (The `requests` headers mapping is
case-insensitive; lookups here always use the exact key `'content-type'`,
so a plain association lookup models it.) -/
def headersGet (hs : List (String × String)) (k : String) : Option String :=
  hs.lookup k

/-- Python `s.partition(';')[0]`: the part of `s` before the first `';'`
(all of `s` when there is none). -/
def partBeforeSemi (s : String) : String :=
  ⟨s.data.takeWhile (fun ch => ch ≠ ';')⟩

/-- The content-type test on line 22 of the source:
`not ct or ct.partition(';')[0] != 'application/json'` fails the request.
(`ct = some ""` gives `partBeforeSemi "" = ""`, which fails the equality,
matching the `not ct` disjunct for an empty header value.) -/
def ctOk : Option String → Bool
  | none => false
  | some c => partBeforeSemi c == "application/json"

/-- `_get_json(res, ok_check)`: optionally enforce `res.ok`, then validate
the content-type, then parse the body with the (external) JSON parser. -/
def getJson (loads : String → Option Json) (res : Response) (ok_check : Bool) :
    Except PyErr Json :=
  if ok_check && !(resOk res) then
    .error (.maas (.statusContent res.status_code res.text))
  else
    if ctOk (headersGet res.headers "content-type") then
      match loads res.text with
      | some obj => .ok obj
      | none => .error (.maas (.parseFailed res.status_code res.headers res.text))
    else
      .error (.maas (.nonJson res.status_code res.headers res.text))

/-- Python truthiness of a JSON-decoded value. -/
def truthy : Json → Bool
  | .null => false
  | .bool b => b
  | .num n => n != 0
  | .str s => s != ""
  | .arr items => !items.isEmpty
  | .obj fields => !fields.isEmpty

/-- Python `len(v)` for a decoded value: defined for lists, dicts and
strings; `TypeError` (modelled as `none`) otherwise. -/
def pyLen : Json → Option Nat
  | .arr items => some items.length
  | .obj fields => some fields.length
  | .str s => some s.length
  | _ => none

/-- Python `v[0]` for a decoded value.  Dicts produced by `json.loads`
have string keys, so `d[0]` raises `KeyError`; non-subscriptable values
raise `TypeError`. -/
def pyIndex0 : Json → Except PyErr Json
  | .arr [] => .error .indexError
  | .arr (x :: _) => .ok x
  | .str s =>
      match s.data with
      | [] => .error .indexError
      | c :: _ => .ok (.str (String.singleton c))
  | .obj _ => .error .keyError
  | _ => .error .typeError

/-- Python `v[key]` for a decoded value and a string key. -/
def pyGetKey (j : Json) (k : String) : Except PyErr Json :=
  match j with
  | .obj fields =>
      match fields.lookup k with
      | some v => .ok v
      | none => .error .keyError
  | _ => .error .typeError

/-- A client, after `__init__` has stripped trailing slashes from the base
URL (the OAuth session object plays no role in any property here). -/
structure Client where
  url : String
deriving DecidableEq

/-- Python `path.lstrip('/')`. -/
def lstripSlash (p : String) : String :=
  ⟨p.data.dropWhile (fun ch => ch = '/')⟩

/-- `Client._url(path)`: `'%s/%s' % (self.url, path.lstrip('/'))`. -/
def clientUrl (c : Client) (path : String) : String :=
  c.url ++ "/" ++ lstripSlash path

/-- An HTTP request as issued through the session (the `accept:
application/json` header is added unconditionally and carried implicitly). -/
structure Request where
  method : String
  path : String
  data : List (String × String)
deriving DecidableEq

/-- Python `hostname.partition('.')`, keeping the head and the remainder:
`'a.b.c' ↦ ("a", "b.c")`, `'a' ↦ ("a", "")` (no separator found leaves a
`""` remainder, exactly the value the callers test with `if not domain`). -/
def partitionDot (s : String) : String × String :=
  let pre := s.data.takeWhile (fun ch => ch ≠ '.')
  match s.data.dropWhile (fun ch => ch ≠ '.') with
  | [] => (⟨pre⟩, "")
  | _ :: tail => (⟨pre⟩, ⟨tail⟩)

/-- The query path built by `get_node_id`. -/
def nodesPath (hostname : String) : String :=
  let sd := partitionDot hostname
  if sd.2 = "" then
    "/nodes/?hostname=" ++ sd.1
  else
    "/nodes/?hostname=" ++ sd.1 ++ "&domain=" ++ sd.2

/-- The single GET request `get_node_id` issues. -/
def lookupReq (c : Client) (hostname : String) : Request :=
  { method := "GET", path := clientUrl c (nodesPath hostname), data := [] }

/-- `Client.get_node_id(hostname)`: decode the lookup response with
`_get_json(res)` (default `ok_check=False`); an empty result is `None`;
otherwise `assert len(nodes) == 1` and return `nodes[0]['system_id']`. -/
def get_node_id_result (c : Client) (loads : String → Option Json)
    (net : Request → Response) (hostname : String) : Except PyErr (Option Json) :=
  match getJson loads (net (lookupReq c hostname)) false with
  | .error e => .error e
  | .ok nodes =>
    if truthy nodes then
      match pyLen nodes with
      | none => .error .typeError
      | some l =>
        if l = 1 then
          match pyIndex0 nodes with
          | .error e => .error e
          | .ok first =>
            match pyGetKey first "system_id" with
            | .error e => .error e
            | .ok v => .ok (some v)
        else .error .assertion
    else .ok none

/-- `get_node_id` together with the requests it issues (always exactly the
one lookup request). -/
def get_node_id (c : Client) (loads : String → Option Json)
    (net : Request → Response) (hostname : String) :
    Except PyErr (Option Json) × List Request :=
  (get_node_id_result c loads net hostname, [lookupReq c hostname])

/-- A machine handle: `Machine(client, system_id)`. -/
structure Machine where
  client : Client
  system_id : Json

/-- `Client.get_machine(hostname)`: `None` when the node id is absent or
falsy, else a `Machine` handle. -/
def get_machine_result (c : Client) (loads : String → Option Json)
    (net : Request → Response) (hostname : String) : Except PyErr (Option Machine) :=
  match get_node_id_result c loads net hostname with
  | .error e => .error e
  | .ok none => .ok none
  | .ok (some nid) =>
      if truthy nid then .ok (some { client := c, system_id := nid })
      else .ok none

def get_machine (c : Client) (loads : String → Option Json)
    (net : Request → Response) (hostname : String) :
    Except PyErr (Option Machine) × List Request :=
  (get_machine_result c loads net hostname, (get_node_id c loads net hostname).2)

/-- The flattened form data `enlist_and_commission` posts: fixed fields,
then the optional domain, then one `mac_addresses` pair per address, then
one `power_parameters_<key>` pair per power parameter. -/
def enlistData (hostname : String) (mac_addresses : List String)
    (power_type : String) (power_parameters : List (String × String)) :
    List (String × String) :=
  let sd := partitionDot hostname
  [("hostname", sd.1), ("architecture", "amd64"), ("power_type", power_type)]
    ++ (if sd.2 = "" then [] else [("domain", sd.2)])
    ++ mac_addresses.map (fun i => ("mac_addresses", i))
    ++ power_parameters.map (fun kv => ("power_parameters_" ++ kv.1, kv.2))

/-- The creation POST `enlist_and_commission` issues. -/
def enlistReq (c : Client) (hostname : String) (mac_addresses : List String)
    (power_type : String) (power_parameters : List (String × String)) : Request :=
  { method := "POST", path := clientUrl c "/machines/",
    data := enlistData hostname mac_addresses power_type power_parameters }

/-- `Client.enlist_and_commission`: POST the creation request (its response
is bound to `res` and then ignored by the source), then
`return self.get_machine(hostname)`. -/
def enlist_and_commission (c : Client) (loads : String → Option Json)
    (net : Request → Response) (hostname : String) (mac_addresses : List String)
    (power_type : String) (power_parameters : List (String × String)) :
    Except PyErr (Option Machine) × List Request :=
  let req := enlistReq c hostname mac_addresses power_type power_parameters
  let _res := net req
  (get_machine_result c loads net hostname,
    req :: (get_machine c loads net hostname).2)

/-- Outcome of one `Machine.poll` call. -/
inductive PollOutcome where
  | success : PollOutcome
  | err (e : PyErr) : PollOutcome
deriving DecidableEq

/-- Observable trace of one `poll` call: its outcome, the durations of the
sleeps it performed in order, and the final `wait_total`. -/
structure PollTrace where
  outcome : PollOutcome
  sleeps : List Int
  waitTotal : Int
deriving DecidableEq

/-- The `while True` loop of `Machine.poll`.  `fetch n` is the
`status_name` of the `n`-th `get_detail()` result; `elapsed n` is the raw
clock difference `time.time() - t` measured around that fetch (clamped
with `max · 0` exactly as in the source).  Recursion is on explicit fuel;
`none` means the fuel ran out before the loop exited. -/
def pollLoop (return_on continue_on : List String) (timeout : Int)
    (fetch : Nat → String) (elapsed : Nat → Int) :
    Nat → Nat → Int → Int → List Int → Option PollTrace
  | 0, _, _, _, _ => none
  | fuel + 1, n, wait_total, backoff, sleeps =>
    let status := fetch n
    if return_on.contains status then
      some { outcome := .success, sleeps := sleeps, waitTotal := wait_total }
    else if continue_on.contains status then
      if wait_total > timeout then
        some { outcome := .err (.maas (.timeout return_on timeout status)),
               sleeps := sleeps, waitTotal := wait_total }
      else
        let dt := max (elapsed n) 0
        pollLoop return_on continue_on timeout fetch elapsed fuel (n + 1)
          (wait_total + (dt + backoff)) (min 10 (backoff * 2)) (sleeps ++ [backoff])
    else
      some { outcome := .err (.maas (.unexpected status)),
             sleeps := sleeps, waitTotal := wait_total }

/-- `Machine.poll(return_on, continue_on, timeout)`:
`wait_total = 0`, `backoff = 3`, then the loop. -/
def poll (return_on continue_on : List String) (timeout : Int)
    (fetch : Nat → String) (elapsed : Nat → Int) (fuel : Nat) : Option PollTrace :=
  pollLoop return_on continue_on timeout fetch elapsed fuel 0 0 3 []

/-- Closed form of the backoff value used for the `n`-th sleep:
3, 6, 10, 10, 10, ... -/
def backoffSeq : Nat → Int
  | 0 => 3
  | 1 => 6
  | _ + 2 => 10

/-- Accumulated `wait_total` after `n` sleeps when every iteration takes
the continue branch: each sleep `i` adds `max (elapsed i) 0 + backoffSeq i`. -/
def waitAfter (elapsed : Nat → Int) : Nat → Int
  | 0 => 0
  | n + 1 => waitAfter elapsed n + (max (elapsed n) 0 + backoffSeq n)

lemma backoffSeq_step (j : Nat) : min (10 : Int) (backoffSeq j * 2) = backoffSeq (j + 1) := by
  rcases j with _ | _ | k
  · show min (10 : Int) (3 * 2) = 6
    omega
  · show min (10 : Int) (6 * 2) = 10
    omega
  · show min (10 : Int) (10 * 2) = 10
    omega

lemma backoffSeq_ge (j : Nat) : (3 : Int) ≤ backoffSeq j := by
  rcases j with _ | _ | k
  · show (3 : Int) ≤ 3
    omega
  · show (3 : Int) ≤ 6
    omega
  · show (3 : Int) ≤ 10
    omega

lemma range_map_snoc (j : Nat) :
    (List.range j).map backoffSeq ++ [backoffSeq j] = (List.range (j + 1)).map backoffSeq := by
  rw [List.range_succ, List.map_append, List.map_singleton]

lemma pollLoop_sleeps_inv (ro co : List String) (ti : Int) (f : Nat → String)
    (el : Nat → Int) :
    ∀ (fuel j : Nat) (w : Int) (tr : PollTrace),
      pollLoop ro co ti f el fuel j w (backoffSeq j) ((List.range j).map backoffSeq) = some tr →
      tr.sleeps = (List.range tr.sleeps.length).map backoffSeq := by
  intro fuel
  induction fuel with
  | zero =>
    intro j w tr h
    simp [pollLoop] at h
  | succ n ih =>
    intro j w tr h
    simp only [pollLoop] at h
    rcases e1 : ro.contains (f j) with _ | _
    · rw [e1, if_neg Bool.false_ne_true] at h
      rcases e2 : co.contains (f j) with _ | _
      · rw [e2, if_neg Bool.false_ne_true] at h
        obtain rfl : _ = tr := Option.some.inj h
        simp
      · rw [e2, if_pos rfl] at h
        by_cases h3 : ti < w
        · rw [if_pos h3] at h
          obtain rfl : _ = tr := Option.some.inj h
          simp
        · rw [if_neg h3] at h
          rw [backoffSeq_step, range_map_snoc] at h
          exact ih (j + 1) _ tr h
    · rw [e1, if_pos rfl] at h
      obtain rfl : _ = tr := Option.some.inj h
      simp

/-- C2: within any single `poll` call the durations of the successive
sleeps (the backoff actually slept each iteration) are exactly
`3, 6, 10, 10, 10, ...` — the closed form `backoffSeq`, which starts at 3,
doubles after each sleep, is capped at 10, and never resets or decreases. -/
theorem C2_backoff_sequence (ro co : List String) (ti : Int) (f : Nat → String)
    (el : Nat → Int) (fuel : Nat) (tr : PollTrace)
    (h : poll ro co ti f el fuel = some tr) :
    tr.sleeps = (List.range tr.sleeps.length).map backoffSeq := by
  have h0 : pollLoop ro co ti f el fuel 0 0 (backoffSeq 0)
      ((List.range 0).map backoffSeq) = some tr := by
    simpa [poll, backoffSeq] using h
  exact pollLoop_sleeps_inv ro co ti f el fuel 0 0 tr h0

theorem C2_backoff_sequence_witness :
    poll ["Y"] ["X"] 5 (fun _ => "X") (fun _ => 0) 3 =
      some { outcome := .err (.maas (.timeout ["Y"] 5 "X")),
             sleeps := [3, 6], waitTotal := 9 } ∧
    ([3, 6] : List Int) = (List.range ([3, 6] : List Int).length).map backoffSeq := by
  have e : poll ["Y"] ["X"] 5 (fun _ => "X") (fun _ => 0) 3 =
      some { outcome := .err (.maas (.timeout ["Y"] 5 "X")),
             sleeps := [3, 6], waitTotal := 9 } := by decide
  exact ⟨e, C2_backoff_sequence ["Y"] ["X"] 5 (fun _ => "X") (fun _ => 0) 3 _ e⟩

/-- C3: when the very first fetched status is in `return_on`, `poll`
returns success immediately: the sleep log is empty and `wait_total` is
still 0. -/
theorem C3_return_first (ro co : List String) (ti : Int) (f : Nat → String)
    (el : Nat → Int) (fuel : Nat) (h : ro.contains (f 0) = true) :
    poll ro co ti f el (fuel + 1) =
      some { outcome := .success, sleeps := [], waitTotal := 0 } := by
  show pollLoop ro co ti f el (fuel + 1) 0 0 3 [] = _
  simp only [pollLoop]
  rw [h, if_pos rfl]

theorem C3_return_first_witness :
    (["Ready"] : List String).contains ((fun _ => "Ready") 0) = true ∧
    poll ["Ready"] ["Deploying"] 60 (fun _ => "Ready") (fun _ => 0) 1 =
      some { outcome := .success, sleeps := [], waitTotal := 0 } :=
  ⟨by decide, C3_return_first ["Ready"] ["Deploying"] 60 (fun _ => "Ready")
    (fun _ => 0) 0 (by decide)⟩

/-- C4: at any loop state whatsoever (any iteration count, any accumulated
wait, any current backoff), a fetched status lying in neither `return_on`
nor `continue_on` makes `poll` fail immediately with the unexpected-status
`MAASError` carrying that status — no sleep is added to the log, the
accumulated wait is unchanged, and no further fetch happens. -/
theorem C4_unexpected_status (ro co : List String) (ti : Int) (f : Nat → String)
    (el : Nat → Int) (fuel n : Nat) (w b : Int) (sleeps : List Int)
    (h1 : ro.contains (f n) = false) (h2 : co.contains (f n) = false) :
    pollLoop ro co ti f el (fuel + 1) n w b sleeps =
      some { outcome := .err (.maas (.unexpected (f n))),
             sleeps := sleeps, waitTotal := w } := by
  simp only [pollLoop]
  rw [h1, h2, if_neg Bool.false_ne_true, if_neg Bool.false_ne_true]

theorem C4_unexpected_status_witness :
    (["Deployed"] : List String).contains ((fun _ => "Broken") 2) = false ∧
    (["Deploying"] : List String).contains ((fun _ => "Broken") 2) = false ∧
    pollLoop ["Deployed"] ["Deploying"] 60 (fun _ => "Broken") (fun _ => 0) 1 2 9 10 [3, 6] =
      some { outcome := .err (.maas (.unexpected "Broken")),
             sleeps := [3, 6], waitTotal := 9 } :=
  ⟨by decide, by decide,
    C4_unexpected_status ["Deployed"] ["Deploying"] 60 (fun _ => "Broken")
      (fun _ => 0) 0 2 9 10 [3, 6] (by decide) (by decide)⟩

lemma waitAfter_nonneg (el : Nat → Int) (n : Nat) : 0 ≤ waitAfter el n := by
  induction n with
  | zero => exact le_refl 0
  | succ k ih =>
    have h1 : (0 : Int) ≤ max (el k) 0 := le_max_right (el k) 0
    have h2 := backoffSeq_ge k
    show 0 ≤ waitAfter el k + (max (el k) 0 + backoffSeq k)
    omega

lemma waitAfter_ge (el : Nat → Int) (n : Nat) : 3 * (n : Int) ≤ waitAfter el n := by
  induction n with
  | zero => simp [waitAfter]
  | succ k ih =>
    have h1 : (0 : Int) ≤ max (el k) 0 := le_max_right (el k) 0
    have h2 := backoffSeq_ge k
    show 3 * ((k : Int) + 1) ≤ waitAfter el k + (max (el k) 0 + backoffSeq k)
    omega

lemma exists_waitAfter_gt (el : Nat → Int) (ti : Int) : ∃ n, ti < waitAfter el n := by
  refine ⟨ti.toNat + 1, ?_⟩
  have h1 := waitAfter_ge el (ti.toNat + 1)
  have h2 : ti ≤ (ti.toNat : Int) := Int.self_le_toNat ti
  have h3 : ((ti.toNat + 1 : Nat) : Int) = (ti.toNat : Int) + 1 := by push_cast; ring
  omega

lemma pollLoop_timeout_run (ro co : List String) (ti : Int) (f : Nat → String)
    (el : Nat → Int)
    (h : ∀ n, co.contains (f n) = true ∧ ro.contains (f n) = false)
    (m : Nat) (hm : ti < waitAfter el m)
    (hmin : ∀ j, j < m → waitAfter el j ≤ ti) :
    ∀ (d j : Nat), j + d = m →
      pollLoop ro co ti f el (d + 1) j (waitAfter el j) (backoffSeq j)
          ((List.range j).map backoffSeq) =
        some { outcome := .err (.maas (.timeout ro ti (f m))),
               sleeps := (List.range m).map backoffSeq, waitTotal := waitAfter el m } := by
  intro d
  induction d with
  | zero =>
    intro j hj
    obtain rfl : j = m := by omega
    simp only [pollLoop]
    rw [(h j).2, if_neg Bool.false_ne_true, (h j).1, if_pos rfl, if_pos hm]
  | succ d ih =>
    intro j hj
    have hjm : j < m := by omega
    have hle : ¬ ti < waitAfter el j := not_lt.mpr (hmin j hjm)
    simp only [pollLoop]
    rw [(h j).2, if_neg Bool.false_ne_true, (h j).1, if_pos rfl, if_neg hle,
      backoffSeq_step, range_map_snoc]
    exact ih (j + 1) (by omega)

/-- C1 (amended): when every fetched status is in `continue_on` and not in
`return_on`, `poll` eventually fails with the timeout `MAASError`: the loop
breaks at the first iteration `m` whose previously accumulated wait strictly
exceeds the timeout (`wait_total > timeout`), without sleeping again — so
exactly `m` sleeps happen, the final `wait_total` is the wait accumulated by
those `m` sleeps, and the failure is raised on check `m + 1`.  (If a status
lies in both sets, `return_on` is tested first and `poll` returns success
instead — hence the added "not in `return_on`" hypothesis.) -/
theorem C1_always_continue_times_out (ro co : List String) (ti : Int)
    (f : Nat → String) (el : Nat → Int)
    (h : ∀ n, co.contains (f n) = true ∧ ro.contains (f n) = false) :
    ∃ m, (∀ j, j < m → waitAfter el j ≤ ti) ∧ ti < waitAfter el m ∧
      poll ro co ti f el (m + 1) =
        some { outcome := .err (.maas (.timeout ro ti (f m))),
               sleeps := (List.range m).map backoffSeq,
               waitTotal := waitAfter el m } := by
  have hex : ∃ n, ti < waitAfter el n := exists_waitAfter_gt el ti
  refine ⟨Nat.find hex, ?_, Nat.find_spec hex, ?_⟩
  · intro j hj
    exact not_lt.mp (Nat.find_min hex hj)
  · have := pollLoop_timeout_run ro co ti f el h (Nat.find hex) (Nat.find_spec hex)
      (fun j hj => not_lt.mp (Nat.find_min hex hj)) (Nat.find hex) 0 (by omega)
    exact this

theorem C1_always_continue_times_out_witness :
    (∀ (n : Nat), (["X"] : List String).contains ((fun _ : Nat => "X") n) = true ∧
      (["Y"] : List String).contains ((fun _ : Nat => "X") n) = false) ∧
    ∃ (m : Nat), (∀ j, j < m → waitAfter (fun _ => 0) j ≤ 5) ∧
      5 < waitAfter (fun _ => 0) m ∧
      poll ["Y"] ["X"] 5 (fun _ => "X") (fun _ => 0) (m + 1) =
        some { outcome := .err (.maas (.timeout ["Y"] 5 ((fun _ : Nat => "X") m))),
               sleeps := (List.range m).map backoffSeq,
               waitTotal := waitAfter (fun _ => 0) m } := by
  constructor
  · intro n
    exact ⟨rfl, rfl⟩
  · exact C1_always_continue_times_out ["Y"] ["X"] 5 (fun _ => "X") (fun _ => 0)
      (fun n => ⟨rfl, rfl⟩)

/-- C1 counterexample: the claim quantifies over every call in which each
fetched status is in `continue_on`, but `return_on` is checked first; with
`return_on = continue_on = ["X"]` and every status `"X"`, every fetched
status is in `continue_on`, yet `poll` returns success at once and never
produces the timeout failure at any fuel. -/
theorem C1_counterexample :
    (["X"] : List String).contains "X" = true ∧
    ¬ ∃ (fuel : Nat) (sl : List Int) (w : Int) (st : String),
        poll ["X"] ["X"] 5 (fun _ => "X") (fun _ => 0) fuel =
          some { outcome := .err (.maas (.timeout ["X"] 5 st)),
                 sleeps := sl, waitTotal := w } := by
  refine ⟨by decide, ?_⟩
  rintro ⟨fuel, sl, w, st, hp⟩
  rcases fuel with _ | n
  · exact Option.noConfusion hp
  · simp only [poll, pollLoop] at hp
    rw [show (["X"] : List String).contains "X" = true from by decide, if_pos rfl] at hp
    simp at hp

/-- C5 (amended): for every response whose content-type header is absent or
whose media-type portion (before any `';'`) differs from
`application/json`, decoding fails with the content-type `MAASError`
carrying the status, the headers and the body — regardless of the body,
even a valid-JSON one — provided `ok_check` is off or the response status
is in the success class (`res.ok`); with `ok_check` on and a non-ok
status, the non-ok status error fires first instead. -/
theorem C5_content_type_error (loads : String → Option Json) (res : Response)
    (ok_check : Bool)
    (hok : ok_check = false ∨ resOk res = true)
    (hct : ctOk (headersGet res.headers "content-type") = false) :
    getJson loads res ok_check =
      .error (.maas (.nonJson res.status_code res.headers res.text)) := by
  unfold getJson
  have hcond : (ok_check && !(resOk res)) = false := by
    rcases hok with h | h
    · simp [h]
    · simp [h]
  rw [hcond, if_neg Bool.false_ne_true, hct, if_neg Bool.false_ne_true]

theorem C5_content_type_error_witness :
    ((false : Bool) = false ∨
      resOk (Response.mk 200 [("content-type", "text/html")] "2") = true) ∧
    ctOk (headersGet [("content-type", "text/html")] "content-type") = false ∧
    getJson (fun s => if s = "2" then some (.num 2) else none)
        (Response.mk 200 [("content-type", "text/html")] "2") false =
      .error (.maas (.nonJson 200 [("content-type", "text/html")] "2")) :=
  ⟨Or.inl rfl, rfl,
    C5_content_type_error (fun s => if s = "2" then some (.num 2) else none)
      (Response.mk 200 [("content-type", "text/html")] "2")
      false (Or.inl rfl) rfl⟩

/-- C5 counterexample: with success enforcement on (`ok_check = true`), a
500 response whose content-type is `text/html` and whose body `"2"` is
valid JSON does fail — but with the `status=%s content=%s` error raised on
line 16 before the content-type inspection (a message that carries no
headers), not with the content-type error the claim requires. -/
theorem C5_counterexample :
    ctOk (headersGet [("content-type", "text/html")] "content-type") = false ∧
    getJson (fun s => if s = "2" then some (.num 2) else none)
        (Response.mk 500 [("content-type", "text/html")] "2") true =
      .error (.maas (.statusContent 500 "2")) ∧
    (Msg.statusContent 500 "2").tag = 0 ∧
    (Msg.nonJson 500 [("content-type", "text/html")] "2").tag = 1 :=
  ⟨rfl, rfl, rfl, rfl⟩

/-- C6: when the body of a response is the JSON encoding of a structured
value `v` (so the external parser recovers `v` from it), the content-type
media type is `application/json`, and the status is in the success class,
decoding returns exactly `v`, for either value of `ok_check` — encode then
decode is the identity. -/
theorem C6_round_trip (loads : String → Option Json) (dumps : Json → String)
    (v : Json) (res : Response) (ok_check : Bool)
    (hrt : loads (dumps v) = some v)
    (hbody : res.text = dumps v)
    (hct : ctOk (headersGet res.headers "content-type") = true)
    (hok : resOk res = true) :
    getJson loads res ok_check = .ok v := by
  unfold getJson
  have hcond : (ok_check && !(resOk res)) = false := by simp [hok]
  rw [hcond, if_neg Bool.false_ne_true, hct, if_pos rfl, hbody, hrt]

theorem C6_round_trip_witness :
    (fun s => if s = "[1]" then some (Json.arr [Json.num 1]) else none)
        ((fun _ : Json => "[1]") (Json.arr [Json.num 1])) =
      some (Json.arr [Json.num 1]) ∧
    ctOk (headersGet [("content-type", "application/json; charset=utf-8")]
      "content-type") = true ∧
    resOk (Response.mk 200 [("content-type", "application/json; charset=utf-8")]
      "[1]") = true ∧
    getJson (fun s => if s = "[1]" then some (Json.arr [Json.num 1]) else none)
        (Response.mk 200 [("content-type", "application/json; charset=utf-8")]
          "[1]") true =
      .ok (Json.arr [Json.num 1]) :=
  ⟨rfl, rfl, rfl,
    C6_round_trip (fun s => if s = "[1]" then some (Json.arr [Json.num 1]) else none)
      (fun _ => "[1]") (Json.arr [Json.num 1])
      (Response.mk 200 [("content-type", "application/json; charset=utf-8")]
        "[1]") true rfl rfl rfl rfl⟩

lemma pollLoop_err_shape (ro co : List String) (ti : Int) (f : Nat → String)
    (el : Nat → Int) :
    ∀ (fuel n : Nat) (w b : Int) (sl : List Int) (tr : PollTrace) (e : PyErr),
      pollLoop ro co ti f el fuel n w b sl = some tr →
      tr.outcome = .err e →
      ∃ m, e = .maas m ∧ (m.tag = 3 ∨ m.tag = 4) := by
  intro fuel
  induction fuel with
  | zero =>
    intro n w b sl tr e h _
    simp [pollLoop] at h
  | succ k ih =>
    intro n w b sl tr e h ho
    simp only [pollLoop] at h
    rcases e1 : ro.contains (f n) with _ | _
    · rw [e1, if_neg Bool.false_ne_true] at h
      rcases e2 : co.contains (f n) with _ | _
      · rw [e2, if_neg Bool.false_ne_true] at h
        obtain rfl : _ = tr := Option.some.inj h
        obtain rfl : _ = e := PollOutcome.err.inj ho
        exact ⟨.unexpected (f n), rfl, Or.inl rfl⟩
      · rw [e2, if_pos rfl] at h
        by_cases h3 : ti < w
        · rw [if_pos h3] at h
          obtain rfl : _ = tr := Option.some.inj h
          obtain rfl : _ = e := PollOutcome.err.inj ho
          exact ⟨.timeout ro ti (f n), rfl, Or.inr rfl⟩
        · rw [if_neg h3] at h
          exact ih _ _ _ _ tr e h ho
    · rw [e1, if_pos rfl] at h
      obtain rfl : _ = tr := Option.some.inj h
      exact PollOutcome.noConfusion ho

lemma getJson_err_shape (loads : String → Option Json) (res : Response)
    (okc : Bool) (e2 : PyErr) (hg : getJson loads res okc = .error e2) :
    ∃ m2, e2 = .maas m2 ∧ m2.tag ≤ 2 := by
  unfold getJson at hg
  by_cases h1 : (okc && !(resOk res)) = true
  · rw [if_pos h1] at hg
    exact ⟨.statusContent res.status_code res.text, (Except.error.inj hg).symm,
      Nat.zero_le 2⟩
  · rw [if_neg h1] at hg
    by_cases h2 : ctOk (headersGet res.headers "content-type") = true
    · rw [if_pos h2] at hg
      rcases e3 : loads res.text with _ | obj
      · rw [e3] at hg
        exact ⟨.parseFailed res.status_code res.headers res.text,
          (Except.error.inj hg).symm, Nat.le_refl 2⟩
      · rw [e3] at hg
        exact absurd hg (by simp)
    · rw [if_neg h2] at hg
      exact ⟨.nonJson res.status_code res.headers res.text,
        (Except.error.inj hg).symm, Nat.le_succ 1⟩

/-- C7 (amended): every failure `poll` produces — timeout or unexpected
status — is raised as the one `MAASError` exception kind, the same kind
every decoder failure has; the failures are distinguishable from each
other and from the decoder's errors only by the message's format (the
poll messages use formats 3 and 4, the decoder's use formats 0–2), never
by the error's kind. -/
theorem C7_error_kinds (ro co : List String) (ti : Int) (f : Nat → String)
    (el : Nat → Int) (fuel : Nat) (tr : PollTrace) (e : PyErr)
    (hp : poll ro co ti f el fuel = some tr) (ho : tr.outcome = .err e) :
    PyErr.kind e = ErrKind.maasError ∧
    (∃ m, e = .maas m ∧ (m.tag = 3 ∨ m.tag = 4)) ∧
    ∀ (loads : String → Option Json) (res : Response) (okc : Bool) (e2 : PyErr),
      getJson loads res okc = .error e2 →
      PyErr.kind e2 = ErrKind.maasError ∧ PyErr.kind e = PyErr.kind e2 ∧
      ∃ m2, e2 = .maas m2 ∧ m2.tag ≤ 2 := by
  obtain ⟨m, rfl, htag⟩ := pollLoop_err_shape ro co ti f el fuel 0 0 3 [] tr e hp ho
  refine ⟨rfl, ⟨m, rfl, htag⟩, ?_⟩
  intro loads res okc e2 hg
  obtain ⟨m2, rfl, ht2⟩ := getJson_err_shape loads res okc e2 hg
  exact ⟨rfl, rfl, m2, rfl, ht2⟩

theorem C7_error_kinds_witness :
    poll ["Y"] ["X"] 5 (fun _ => "X") (fun _ => 0) 3 =
      some (PollTrace.mk (.err (.maas (.timeout ["Y"] 5 "X"))) [3, 6] 9) ∧
    (PollTrace.mk (.err (.maas (.timeout ["Y"] 5 "X"))) [3, 6] 9).outcome =
      .err (.maas (.timeout ["Y"] 5 "X")) ∧
    (PyErr.kind (.maas (.timeout ["Y"] 5 "X")) = ErrKind.maasError ∧
      (∃ m, PyErr.maas (.timeout ["Y"] 5 "X") = .maas m ∧ (m.tag = 3 ∨ m.tag = 4)) ∧
      ∀ (loads : String → Option Json) (res : Response) (okc : Bool) (e2 : PyErr),
        getJson loads res okc = .error e2 →
        PyErr.kind e2 = ErrKind.maasError ∧
        PyErr.kind (.maas (.timeout ["Y"] 5 "X")) = PyErr.kind e2 ∧
        ∃ m2, e2 = .maas m2 ∧ m2.tag ≤ 2) :=
  ⟨by decide, rfl,
    C7_error_kinds ["Y"] ["X"] 5 (fun _ => "X") (fun _ => 0) 3
      (PollTrace.mk (.err (.maas (.timeout ["Y"] 5 "X"))) [3, 6] 9)
      (.maas (.timeout ["Y"] 5 "X")) (by decide) rfl⟩

/-- C7 counterexample: a timeout failure produced by `poll` and a
content-type failure produced by the decoder, both at concrete inputs,
have the very same error kind (`MAASError`), as does the unexpected-status
message — so a caller cannot tell a poll failure from a remote/decoding
failure by the error's kind, contradicting the claimed distinctness. -/
theorem C7_counterexample :
    poll ["Y"] ["X"] 5 (fun _ => "X") (fun _ => 0) 3 =
      some (PollTrace.mk (.err (.maas (.timeout ["Y"] 5 "X"))) [3, 6] 9) ∧
    getJson (fun _ => none) (Response.mk 200 [("content-type", "text/html")] "2") false =
      .error (.maas (.nonJson 200 [("content-type", "text/html")] "2")) ∧
    PyErr.kind (.maas (.timeout ["Y"] 5 "X")) =
      PyErr.kind (.maas (.nonJson 200 [("content-type", "text/html")] "2")) ∧
    PyErr.kind (.maas (.unexpected "Broken")) =
      PyErr.kind (.maas (.nonJson 200 [("content-type", "text/html")] "2")) :=
  ⟨by decide, rfl, rfl, rfl⟩

lemma pyGetKey_no_assertion (j : Json) (k : String) :
    pyGetKey j k ≠ Except.error PyErr.assertion := by
  rcases j with _ | b | n | s | items | fields
  · simp [pyGetKey]
  · simp [pyGetKey]
  · simp [pyGetKey]
  · simp [pyGetKey]
  · simp [pyGetKey]
  · show (match fields.lookup k with
        | some v => Except.ok v
        | none => Except.error PyErr.keyError) ≠ Except.error PyErr.assertion
    rcases h : fields.lookup k with _ | v
    · simp
    · simp

lemma getJson_of_arr (c : Client) (loads : String → Option Json)
    (net : Request → Response) (hostname : String) (l : List Json)
    (hct : ctOk (headersGet (net (lookupReq c hostname)).headers "content-type") = true)
    (hl : loads (net (lookupReq c hostname)).text = some (.arr l)) :
    getJson loads (net (lookupReq c hostname)) false = .ok (.arr l) := by
  unfold getJson
  rw [show (false && !(resOk (net (lookupReq c hostname)))) = false from rfl,
    if_neg Bool.false_ne_true, hct, if_pos rfl, hl]

/-- `get_node_id` on a lookup that decodes to the empty JSON list. -/
lemma get_node_id_result_nil (c : Client) (loads : String → Option Json)
    (net : Request → Response) (hostname : String)
    (hct : ctOk (headersGet (net (lookupReq c hostname)).headers "content-type") = true)
    (hl : loads (net (lookupReq c hostname)).text = some (.arr [])) :
    get_node_id_result c loads net hostname = .ok none := by
  unfold get_node_id_result
  rw [getJson_of_arr c loads net hostname [] hct hl]
  rfl

/-- `get_node_id` on a lookup that decodes to a one-entry JSON list:
the `assert` passes and the entry's `system_id` subscript decides the
result. -/
lemma get_node_id_result_single (c : Client) (loads : String → Option Json)
    (net : Request → Response) (hostname : String) (x : Json)
    (hct : ctOk (headersGet (net (lookupReq c hostname)).headers "content-type") = true)
    (hl : loads (net (lookupReq c hostname)).text = some (.arr [x])) :
    get_node_id_result c loads net hostname =
      (match pyGetKey x "system_id" with
        | .error e => .error e
        | .ok v => .ok (some v)) := by
  unfold get_node_id_result
  rw [getJson_of_arr c loads net hostname [x] hct hl]
  rfl

/-- `get_node_id` on a lookup that decodes to a JSON list of two or more
entries: the `assert len(nodes) == 1` fails. -/
lemma get_node_id_result_multi (c : Client) (loads : String → Option Json)
    (net : Request → Response) (hostname : String) (x y : Json) (rest : List Json)
    (hct : ctOk (headersGet (net (lookupReq c hostname)).headers "content-type") = true)
    (hl : loads (net (lookupReq c hostname)).text = some (.arr (x :: y :: rest))) :
    get_node_id_result c loads net hostname = .error .assertion := by
  unfold get_node_id_result
  rw [getJson_of_arr c loads net hostname (x :: y :: rest) hct hl]
  rfl

/-- C8: when the decoded lookup result is a JSON list with more than one
entry, `get_node_id` fails with Python's `AssertionError` — an exception
kind distinct from `MAASError` — and with zero or one entry that failure
can never happen. -/
theorem C8_uniqueness_assertion (c : Client) (loads : String → Option Json)
    (net : Request → Response) (hostname : String) (l : List Json)
    (hct : ctOk (headersGet (net (lookupReq c hostname)).headers "content-type") = true)
    (hl : loads (net (lookupReq c hostname)).text = some (.arr l)) :
    (1 < l.length → (get_node_id c loads net hostname).1 = .error .assertion) ∧
    (l.length ≤ 1 → (get_node_id c loads net hostname).1 ≠ .error .assertion) ∧
    PyErr.kind .assertion ≠ ErrKind.maasError := by
  have hfst : (get_node_id c loads net hostname).1 =
      get_node_id_result c loads net hostname := rfl
  refine ⟨?_, ?_, by decide⟩
  · intro hlen
    rcases l with _ | ⟨x, _ | ⟨y, rest⟩⟩
    · simp only [List.length_nil] at hlen
      omega
    · simp only [List.length_cons, List.length_nil] at hlen
      omega
    · rw [hfst, get_node_id_result_multi c loads net hostname x y rest hct hl]
  · intro hlen h
    rcases l with _ | ⟨x, _ | ⟨y, rest⟩⟩
    · rw [hfst, get_node_id_result_nil c loads net hostname hct hl] at h
      exact Except.noConfusion h
    · rw [hfst, get_node_id_result_single c loads net hostname x hct hl] at h
      rcases e : pyGetKey x "system_id" with err | v
      · rw [e] at h
        have h' : (Except.error err : Except PyErr (Option Json)) =
            Except.error PyErr.assertion := h
        exact pyGetKey_no_assertion x "system_id"
          (by rw [e, Except.error.inj h'])
      · rw [e] at h
        have h' : (Except.ok (some v) : Except PyErr (Option Json)) =
            Except.error PyErr.assertion := h
        exact Except.noConfusion h' 
    · simp only [List.length_cons] at hlen
      omega

theorem C8_uniqueness_assertion_witness :
    (get_node_id (Client.mk "http://maas")
        (fun _ => some (Json.arr [Json.null, Json.null]))
        (fun _ => Response.mk 200 [("content-type", "application/json")] "x") "h").1 =
      .error PyErr.assertion :=
  (C8_uniqueness_assertion (Client.mk "http://maas")
      (fun _ => some (Json.arr [Json.null, Json.null]))
      (fun _ => Response.mk 200 [("content-type", "application/json")] "x") "h"
      [Json.null, Json.null] rfl rfl).1 (by decide)

/-- C9: a successful `enlist_and_commission` call issues exactly two
requests, the creation POST on the machines collection followed by the one
hostname lookup GET, and the handle it returns carries exactly the
`system_id` that the lookup found. -/
theorem C9_enlist_two_requests (c : Client) (loads : String → Option Json)
    (net : Request → Response) (hostname : String) (macs : List String)
    (ptype : String) (pparams : List (String × String)) (m : Machine)
    (reqs : List Request)
    (h : enlist_and_commission c loads net hostname macs ptype pparams =
      (.ok (some m), reqs)) :
    reqs = [enlistReq c hostname macs ptype pparams, lookupReq c hostname] ∧
    (enlistReq c hostname macs ptype pparams).method = "POST" ∧
    (enlistReq c hostname macs ptype pparams).path = clientUrl c "/machines/" ∧
    (lookupReq c hostname).method = "GET" ∧
    (lookupReq c hostname).path = clientUrl c (nodesPath hostname) ∧
    (get_node_id c loads net hostname).1 = .ok (some m.system_id) := by
  have h2 : reqs = [enlistReq c hostname macs ptype pparams, lookupReq c hostname] :=
    (congrArg Prod.snd h).symm
  have h1 : get_machine_result c loads net hostname = .ok (some m) :=
    congrArg Prod.fst h
  refine ⟨h2, rfl, rfl, rfl, rfl, ?_⟩
  show get_node_id_result c loads net hostname = .ok (some m.system_id)
  unfold get_machine_result at h1
  rcases e : get_node_id_result c loads net hostname with err | onid
  · rw [e] at h1
    have h1' : (Except.error err : Except PyErr (Option Machine)) =
        Except.ok (some m) := h1
    exact Except.noConfusion h1'
  · rcases onid with _ | nid
    · rw [e] at h1
      have h1' : (Except.ok none : Except PyErr (Option Machine)) =
          Except.ok (some m) := h1
      exact Option.noConfusion (Except.ok.inj h1')
    · rw [e] at h1
      have h1' : (if truthy nid = true then
          Except.ok (some (Machine.mk c nid)) else Except.ok none) =
          Except.ok (some m) := h1
      by_cases ht : truthy nid = true
      · rw [if_pos ht] at h1'
        have hm : Machine.mk c nid = m := Option.some.inj (Except.ok.inj h1')
        rw [← hm]
      · rw [if_neg ht] at h1'
        exact Option.noConfusion (Except.ok.inj h1')

theorem C9_enlist_two_requests_witness :
    enlist_and_commission (Client.mk "http://maas")
        (fun _ => some (Json.arr [Json.obj [("system_id", Json.str "abc")]]))
        (fun _ => Response.mk 200 [("content-type", "application/json")] "x")
        "host.dom" ["aa:bb"] "ipmi" [("power_address", "1.2.3.4")] =
      (.ok (some (Machine.mk (Client.mk "http://maas") (Json.str "abc"))),
        [enlistReq (Client.mk "http://maas") "host.dom" ["aa:bb"] "ipmi"
           [("power_address", "1.2.3.4")],
         lookupReq (Client.mk "http://maas") "host.dom"]) ∧
    ([enlistReq (Client.mk "http://maas") "host.dom" ["aa:bb"] "ipmi"
        [("power_address", "1.2.3.4")],
      lookupReq (Client.mk "http://maas") "host.dom"] =
      [enlistReq (Client.mk "http://maas") "host.dom" ["aa:bb"] "ipmi"
        [("power_address", "1.2.3.4")],
       lookupReq (Client.mk "http://maas") "host.dom"] ∧
    (enlistReq (Client.mk "http://maas") "host.dom" ["aa:bb"] "ipmi"
      [("power_address", "1.2.3.4")]).method = "POST" ∧
    (enlistReq (Client.mk "http://maas") "host.dom" ["aa:bb"] "ipmi"
      [("power_address", "1.2.3.4")]).path =
      clientUrl (Client.mk "http://maas") "/machines/" ∧
    (lookupReq (Client.mk "http://maas") "host.dom").method = "GET" ∧
    (lookupReq (Client.mk "http://maas") "host.dom").path =
      clientUrl (Client.mk "http://maas") (nodesPath "host.dom") ∧
    (get_node_id (Client.mk "http://maas")
        (fun _ => some (Json.arr [Json.obj [("system_id", Json.str "abc")]]))
        (fun _ => Response.mk 200 [("content-type", "application/json")] "x")
        "host.dom").1 =
      .ok (some (Machine.mk (Client.mk "http://maas") (Json.str "abc")).system_id)) :=
  ⟨rfl,
    C9_enlist_two_requests (Client.mk "http://maas")
      (fun _ => some (Json.arr [Json.obj [("system_id", Json.str "abc")]]))
      (fun _ => Response.mk 200 [("content-type", "application/json")] "x")
      "host.dom" ["aa:bb"] "ipmi" [("power_address", "1.2.3.4")]
      (Machine.mk (Client.mk "http://maas") (Json.str "abc")) _ rfl⟩

/-- C10: when the decoded lookup result is the empty JSON list,
`get_node_id` returns `None` rather than failing, and `get_machine`
returns `None` instead of constructing a handle. -/
theorem C10_empty_lookup (c : Client) (loads : String → Option Json)
    (net : Request → Response) (hostname : String)
    (hct : ctOk (headersGet (net (lookupReq c hostname)).headers "content-type") = true)
    (hl : loads (net (lookupReq c hostname)).text = some (.arr [])) :
    (get_node_id c loads net hostname).1 = .ok none ∧
    (get_machine c loads net hostname).1 = .ok none := by
  have hr := get_node_id_result_nil c loads net hostname hct hl
  constructor
  · exact hr
  · show get_machine_result c loads net hostname = .ok none
    unfold get_machine_result
    rw [hr]

theorem C10_empty_lookup_witness :
    (get_node_id (Client.mk "http://maas") (fun _ => some (Json.arr []))
        (fun _ => Response.mk 200 [("content-type", "application/json")] "[]") "h.x").1 =
      .ok none ∧
    (get_machine (Client.mk "http://maas") (fun _ => some (Json.arr []))
        (fun _ => Response.mk 200 [("content-type", "application/json")] "[]") "h.x").1 =
      .ok none :=
  C10_empty_lookup (Client.mk "http://maas") (fun _ => some (Json.arr []))
    (fun _ => Response.mk 200 [("content-type", "application/json")] "[]") "h.x" rfl rfl

end Py27Maas
